import Mathlib

/-!
Verification of the VulnLabMicroservice secure API gateway
(src/gateway/index.js) against its natural-language specification.

The development shallowly embeds the gateway control plane:
the single-connection RabbitMQ publisher and its reconnect loop,
the rate-limiting admission layer, the metrics middleware,
the opossum circuit breaker (modelled from the spec, since only its
configuration lives in the repository) and the route handlers.
-/

namespace VulnLab

/-- Flat JSON-like values, enough for the bodies the gateway produces. -/
inductive JVal where
  | jstr (s : String)
  | jbool (b : Bool)
  | jnum (n : Nat)
deriving DecidableEq, Repr

/-- A JSON object is a list of string-keyed fields. -/
abbrev JObj := List (String × JVal)

/-- JavaScript truthiness of an optional field value, as used by the
route guard `!response.data.fallback`. -/
def truthy : Option JVal → Bool
  | none => false
  | some (.jbool b) => b
  | some (.jstr s) => s ≠ ""
  | some (.jnum n) => n ≠ 0

/-- An HTTP response as the gateway delivers it: status code and JSON body. -/
structure HttpResponse where
  status : Nat
  body : JObj
deriving DecidableEq, Repr

/-! ## Publisher connection lifecycle (src/gateway/index.js lines 35-56)

The secure gateway keeps one module-level `rabbitChannel`; the
`connectToRabbitMQ` function is invoked once at startup, and again only
from the `setTimeout` scheduled by the close handler or by a failed
attempt.  We track how many live connections, in-flight connect attempts
and scheduled reconnect timers exist at once. -/

/-- Connection-lifecycle bookkeeping of the gateway process. -/
structure ConnState where
  liveConnections : Nat
  activeAttempts : Nat
  scheduledRetries : Nat
  channelReady : Bool
deriving DecidableEq, Repr

/-- State right after module load: line 56 has invoked `connectToRabbitMQ()`
once, so exactly one connect attempt is in flight. -/
def startupState : ConnState :=
  { liveConnections := 0, activeAttempts := 1, scheduledRetries := 0, channelReady := false }

/-- Events the connection lifecycle reacts to. -/
inductive ConnEvent where
  | connectOk
  | connectFail
  | retryFire
  | connClose
  | publish (queue : String)
deriving DecidableEq, Repr

/-- Transitions of the connection lifecycle, one per code path:
`connectOk` is `amqp.connect` resolving and the channel being stored
(lines 39-41); `connectFail` is the catch branch scheduling a retry
(lines 49-52); `retryFire` is a scheduled `setTimeout(connectToRabbitMQ)`
firing (lines 47 and 51); `connClose` is the close handler clearing the
channel and scheduling a retry (lines 44-48); `publish` is
`publishToQueue`, which only uses the already-stored channel and never
touches the connection state (lines 58-67). -/
inductive ConnStep : ConnState → ConnEvent → ConnState → Prop where
  | connectOk (l a r : Nat) (c : Bool) :
      ConnStep ⟨l, a + 1, r, c⟩ .connectOk ⟨l + 1, a, r, true⟩
  | connectFail (l a r : Nat) (c : Bool) :
      ConnStep ⟨l, a + 1, r, c⟩ .connectFail ⟨l, a, r + 1, c⟩
  | retryFire (l a r : Nat) (c : Bool) :
      ConnStep ⟨l, a, r + 1, c⟩ .retryFire ⟨l, a + 1, r, c⟩
  | connClose (l a r : Nat) (c : Bool) :
      ConnStep ⟨l + 1, a, r, c⟩ .connClose ⟨l, a, r + 1, false⟩
  | publish (s : ConnState) (q : String) :
      ConnStep s (.publish q) s

/-- States reachable from process startup. -/
inductive ConnReachable : ConnState → Prop where
  | start : ConnReachable startupState
  | step {s s' : ConnState} {e : ConnEvent} :
      ConnReachable s → ConnStep s e s' → ConnReachable s'

/-- The conserved token count of the reconnect loop. -/
def connTokens (s : ConnState) : Nat :=
  s.liveConnections + s.activeAttempts + s.scheduledRetries

lemma connStep_tokens {s s' : ConnState} {e : ConnEvent}
    (h : ConnStep s e s') : connTokens s' = connTokens s := by
  cases h <;> simp [connTokens] <;> omega

lemma connReachable_tokens {s : ConnState} (h : ConnReachable s) :
    connTokens s = 1 := by
  induction h with
  | start => rfl
  | step _ hstep ih => rw [connStep_tokens hstep]; exact ih

/-! ## The publisher (src/gateway/index.js lines 58-67)

`publishToQueue(queue, message)` throws immediately when `rabbitChannel`
is null, and otherwise asserts the queue on the existing channel and
sends the message.  The channel reference carries a healthiness flag:
a stale reference whose underlying connection has just died makes the
channel operations fail, which is the only other failure mode. -/

/-- State of the publisher as the route handlers see it: the
`rabbitChannel` reference (`none` = null; `some healthy` = a channel,
healthy or stale), the set of queues asserted so far, and the log of
messages handed to `sendToQueue`. -/
structure PubState where
  channel : Option Bool
  declaredQueues : List String
  sentMessages : List (String × JObj)
deriving DecidableEq, Repr

/-- Embedding of `publishToQueue` (lines 58-67): throws
`RabbitMQ channel is not ready` when the channel is null, otherwise
asserts the queue idempotently and enqueues the send on the existing
channel; a stale channel makes the channel operation fail instead.
Returns the outcome together with the updated state. -/
def publishToQueue (st : PubState) (queue : String) (message : JObj) :
    Except String Unit × PubState :=
  match st.channel with
  | none => (.error "RabbitMQ channel is not ready", st)
  | some healthy =>
      if healthy then
        (.ok (),
         { st with
             declaredQueues :=
               if st.declaredQueues.contains queue then st.declaredQueues
               else st.declaredQueues ++ [queue],
             sentMessages := st.sentMessages ++ [(queue, message)] })
      else
        (.error "Channel closed", st)

/-! ## Circuit breaker

The gateway configures the opossum library (src/gateway/index.js
lines 72-83) but the breaker machine itself is library code, absent from
the repository; it is modelled from the spec. -/

/-- The three opossum options the gateway sets (lines 72-76). -/
structure BreakerOptions where
  timeout : Nat
  errorThresholdPercentage : Nat
  resetTimeout : Nat
deriving DecidableEq, Repr

/-- The configuration object of src/gateway/index.js lines 72-76. -/
def circuitBreakerOptions : BreakerOptions :=
  { timeout := 3000, errorThresholdPercentage := 50, resetTimeout := 10000 }

/-- Breaker phases. -/
inductive BTag where
  | closed
  | opened
  | halfOpen
deriving DecidableEq, Repr

/-- Modelled from the spec: BreakerState per section 4.2 — phase, rolling
outcome history bounded by count (`true` records a failure), `openedAt`,
and the half-open-trial-in-flight flag.  The breaker implementation
(the opossum library) is not in src/. -/
structure BreakerState where
  tag : BTag
  history : List Bool
  openedAt : Nat
  trialInFlight : Bool
deriving DecidableEq, Repr

/-- Modelled from the spec: the rolling outcome history is bounded by
count; the bound itself is an implementation constant of the library. -/
def rollingWindowSize : Nat := 10

/-- A fresh breaker as created at line 83. -/
def initialBreaker : BreakerState :=
  { tag := .closed, history := [], openedAt := 0, trialInFlight := false }

/-- Modelled from the spec: record one outcome into the bounded rolling
history (most recent first). -/
def recordOutcome (h : List Bool) (fail : Bool) : List Bool :=
  (fail :: h).take rollingWindowSize

/-- Modelled from the spec: percentage of failures over the rolling
history. -/
def failureRatio (h : List Bool) : Nat :=
  if h.isEmpty then 0 else 100 * h.count true / h.length

/-- Result of one attempted downstream call: whether the promise
resolved, how long the call took, and the resolved response data. -/
structure CallResult where
  ok : Bool
  durationMs : Nat
  data : JObj
deriving DecidableEq, Repr

/-- Modelled from the spec: a call is recorded as a failure when it
rejects or when its duration exceeds `timeout`. -/
def isFailure (opts : BreakerOptions) (r : CallResult) : Bool :=
  !r.ok || decide (opts.timeout < r.durationMs)

/-- Admission decision of the breaker for one call. -/
inductive Admit where
  | proceed
  | shortCircuit
deriving DecidableEq, Repr

/-- Modelled from the spec: the breaker decides per call whether to
invoke the underlying function.  CLOSED always proceeds; OPEN
short-circuits until `resetTimeout` has elapsed since `openedAt`, then
lazily moves to HALF_OPEN and admits the call as the single trial;
HALF_OPEN short-circuits while the trial is outstanding. -/
def breakerAdmit (opts : BreakerOptions) (st : BreakerState) (now : Nat) :
    Admit × BreakerState :=
  match st.tag with
  | .closed => (.proceed, st)
  | .opened =>
      if now < st.openedAt + opts.resetTimeout then (.shortCircuit, st)
      else (.proceed, { st with tag := .halfOpen, trialInFlight := true })
  | .halfOpen =>
      if st.trialInFlight then (.shortCircuit, st)
      else (.proceed, { st with trialInFlight := true })

/-- Modelled from the spec: record the outcome of an actually-attempted
call.  In CLOSED, the outcome enters the rolling history and the breaker
opens when the failure ratio reaches the threshold.  In HALF_OPEN, a
successful trial closes the breaker and resets the history; a failed
trial re-opens it with `openedAt` reset to now. -/
def breakerComplete (opts : BreakerOptions) (st : BreakerState) (now : Nat)
    (fail : Bool) : BreakerState :=
  match st.tag with
  | .closed =>
      let h := recordOutcome st.history fail
      if opts.errorThresholdPercentage ≤ failureRatio h then
        { tag := .opened, history := h, openedAt := now, trialInFlight := false }
      else
        { st with history := h }
  | .halfOpen =>
      if fail then
        { tag := .opened, history := recordOutcome st.history fail,
          openedAt := now, trialInFlight := false }
      else
        { tag := .closed, history := [], openedAt := st.openedAt,
          trialInFlight := false }
  | .opened => st

/-- One full `execute` step of the breaker. -/
structure FireStep where
  invoked : Bool
  result : JObj
  state : BreakerState
deriving DecidableEq, Repr

/-- Modelled from the spec: `execute(target, fn, fallback)` returns the
result of `fn` when permitted and successful, and the fallback value
when short-circuited or when the attempted call fails. -/
def breakerExecute (opts : BreakerOptions) (st : BreakerState) (now : Nat)
    (fn : CallResult) (fallback : JObj) : FireStep :=
  match breakerAdmit opts st now with
  | (.shortCircuit, st') => { invoked := false, result := fallback, state := st' }
  | (.proceed, st') =>
      let fail := isFailure opts fn
      { invoked := true,
        result := if fail then fallback else fn.data,
        state := breakerComplete opts st' now fail }

/-- The fallback value installed at src/gateway/index.js lines 85-92:
the `.data` of the object the fallback returns. -/
def fallbackData : JObj :=
  [("error", .jstr "Service temporarily unavailable"), ("fallback", .jbool true)]

/-- `breaker.fire(method, url, body)` as the routes use it: one shared
breaker, the installed fallback, and a target URL that the breaker state
does not depend on (there is a single `CircuitBreaker` instance at
line 83 for every route). -/
def breakerFire (target : String) (st : BreakerState) (now : Nat)
    (fn : CallResult) : FireStep :=
  breakerExecute circuitBreakerOptions st now fn fallbackData

/-! ## Rate limiting (src/gateway/index.js lines 21-30)

The gateway configures the express-rate-limit middleware and applies it
to all requests with `app.use(limiter)`.  The fixed-window counter
itself is library code, absent from the repository; it is modelled from
the spec. -/

/-- The limiter options set at lines 21-27. -/
structure RateLimitConfig where
  windowMs : Nat
  limit : Nat
  message : JObj
deriving DecidableEq, Repr

/-- The configuration object of src/gateway/index.js lines 21-27. -/
def limiterConfig : RateLimitConfig :=
  { windowMs := 60000, limit := 100,
    message := [("error", .jstr "Too many requests, please try again later.")] }

/-- Per-client fixed window: when it started and how many requests it
has counted. -/
structure RateWindow where
  windowStart : Nat
  count : Nat
deriving DecidableEq, Repr

/-- Modelled from the spec: fixed-window counter keyed by client,
atomically incremented, window reset when elapsed; the request is
admitted while the incremented count stays within the limit.  The
counter implementation (the express-rate-limit library) is not in
src/. -/
def rateLimitAdmit (cfg : RateLimitConfig) (w : Option RateWindow) (now : Nat) :
    Bool × RateWindow :=
  match w with
  | none => (true, { windowStart := now, count := 1 })
  | some rw =>
      if rw.windowStart + cfg.windowMs ≤ now then
        (true, { windowStart := now, count := 1 })
      else
        (decide (rw.count + 1 ≤ cfg.limit), { rw with count := rw.count + 1 })

/-! ## Metrics middleware (src/gateway/index.js lines 95-110) -/

/-- The gateway metrics counters (lines 95-100). -/
structure Metrics where
  totalRequests : Nat
  activeConnections : Nat
  failedRequests : Nat
deriving DecidableEq, Repr

/-- The middleware body at lines 102-110 on request entry: increments
the counters and always calls `next()` (the returned flag). -/
def metricsEnter (m : Metrics) : Metrics × Bool :=
  ({ m with totalRequests := m.totalRequests + 1,
            activeConnections := m.activeConnections + 1 }, true)

/-- The `finish` listener at lines 106-108. -/
def metricsFinish (m : Metrics) : Metrics :=
  { m with activeConnections := m.activeConnections - 1 }

/-- `metricsEnter` iterated over n concurrently-arriving requests whose
responses have not finished yet. -/
def metricsEnterN : Nat → Metrics → Metrics
  | 0, m => m
  | n + 1, m => metricsEnterN n (metricsEnter m).1

/-! ## Route handlers (src/gateway/index.js lines 113-173) -/

/-- Resolution of `breaker.fire` as seen inside a route handler try
block: either the promise resolved with a response whose `.data` is the
given object, or it rejected and control moves to the catch block. -/
inductive FireResult where
  | resolved (data : JObj)
  | rejected
deriving DecidableEq, Repr

/-- What `await breaker.fire(...)` produces: with the fallback installed
at lines 85-92 the promise always resolves, with the downstream data or
the fallback data. -/
def fireOf (st : BreakerState) (now : Nat) (fn : CallResult) : FireResult :=
  .resolved (breakerExecute circuitBreakerOptions st now fn fallbackData).result

/-- The body of the 503 catch branch at lines 127 and 142. -/
def serviceUnavailableBody : JObj := [("error", .jstr "Service Unavailable")]

instance : DecidableEq (Except String Unit) := fun a b =>
  match a, b with
  | .ok (), .ok () => isTrue rfl
  | .error s, .error t =>
      if h : s = t then isTrue (by rw [h])
      else isFalse (by intro he; cases he; exact h rfl)
  | .ok _, .error _ => isFalse (by intro h; cases h)
  | .error _, .ok _ => isFalse (by intro h; cases h)

/-- Everything one route invocation produces besides the new publisher
state: the client response, the outcome of the fire-and-forget publish
call when one was made, and the `failedRequests` increment. -/
structure RouteOutput where
  response : HttpResponse
  publishAttempt : Option (Except String Unit)
  failedRequestsDelta : Nat
deriving DecidableEq, Repr

/-- Embedding of the POST /api/auth/login and POST /api/orders handler
bodies (lines 113-129 and 131-144), which differ only in queue name and
event type.  On a resolved fire: when the data is not a fallback and
`rabbitChannel` is non-null, `publishToQueue` is invoked without await,
so its outcome is recorded but the response is `res.json(response.data)`
either way.  On a rejected fire: `failedRequests` is incremented and the
client gets 503 with the Service Unavailable body. -/
def eventRoute (queue : String) (eventMsg : JObj) (fire : FireResult)
    (pub : PubState) : RouteOutput × PubState :=
  match fire with
  | .resolved data =>
      if !truthy (data.lookup "fallback") && pub.channel.isSome then
        let (r, pub') := publishToQueue pub queue eventMsg
        ({ response := { status := 200, body := data },
           publishAttempt := some r, failedRequestsDelta := 0 }, pub')
      else
        ({ response := { status := 200, body := data },
           publishAttempt := none, failedRequestsDelta := 0 }, pub)
  | .rejected =>
      ({ response := { status := 503, body := serviceUnavailableBody },
         publishAttempt := none, failedRequestsDelta := 1 }, pub)

/-- The USER_LOGIN event envelope built at line 120. -/
def loginEvent (now : Nat) : JObj :=
  [("type", .jstr "USER_LOGIN"), ("timestamp", .jnum now)]

/-- The ORDER_CREATED event envelope built at line 136. -/
def orderEvent (now : Nat) : JObj :=
  [("type", .jstr "ORDER_CREATED"), ("timestamp", .jnum now)]

/-- POST /api/auth/login (lines 113-129). -/
def loginRoute (now : Nat) (fire : FireResult) (pub : PubState) :
    RouteOutput × PubState :=
  eventRoute "auth-events" (loginEvent now) fire pub

/-- POST /api/orders (lines 131-144). -/
def ordersRoute (now : Nat) (fire : FireResult) (pub : PubState) :
    RouteOutput × PubState :=
  eventRoute "order-events" (orderEvent now) fire pub

/-- GET /api/users (lines 146-154): breaker call, no event publish. -/
def usersRoute (fire : FireResult) (pub : PubState) : RouteOutput × PubState :=
  match fire with
  | .resolved data =>
      ({ response := { status := 200, body := data },
         publishAttempt := none, failedRequestsDelta := 0 }, pub)
  | .rejected =>
      ({ response := { status := 503, body := serviceUnavailableBody },
         publishAttempt := none, failedRequestsDelta := 1 }, pub)

/-- The GET /health body at line 172. -/
def healthBody : JObj := [("status", .jstr "ok"), ("protected", .jbool true)]

/-- The routes the claims mention. -/
inductive Route where
  | authLogin
  | orders
  | users
  | health
deriving DecidableEq, Repr

/-- What one dispatched request produced end to end. -/
structure DispatchResult where
  response : HttpResponse
  downstreamInvoked : Bool
  publishAttempt : Option (Except String Unit)
deriving DecidableEq, Repr

/-- One request through the gateway middleware stack and a route, in the
order the code installs them: `app.use(limiter)` (line 30) runs first on
every request, then the route handler.  A rate-limited request is
answered 429 with the configured message and reaches neither the breaker
nor the publisher; /health answers the liveness body directly with no
downstream work. -/
def gatewayHandle (route : Route) (w : Option RateWindow) (now : Nat)
    (bst : BreakerState) (pub : PubState) (fn : CallResult) :
    DispatchResult × RateWindow × BreakerState × PubState :=
  let (allowed, w') := rateLimitAdmit limiterConfig w now
  if allowed then
    match route with
    | .health =>
        ({ response := { status := 200, body := healthBody },
           downstreamInvoked := false, publishAttempt := none }, w', bst, pub)
    | .authLogin =>
        let fs := breakerExecute circuitBreakerOptions bst now fn fallbackData
        let (out, pub') := loginRoute now (.resolved fs.result) pub
        ({ response := out.response, downstreamInvoked := fs.invoked,
           publishAttempt := out.publishAttempt }, w', fs.state, pub')
    | .orders =>
        let fs := breakerExecute circuitBreakerOptions bst now fn fallbackData
        let (out, pub') := ordersRoute now (.resolved fs.result) pub
        ({ response := out.response, downstreamInvoked := fs.invoked,
           publishAttempt := out.publishAttempt }, w', fs.state, pub')
    | .users =>
        let fs := breakerExecute circuitBreakerOptions bst now fn fallbackData
        let (out, pub') := usersRoute (.resolved fs.result) pub
        ({ response := out.response, downstreamInvoked := fs.invoked,
           publishAttempt := out.publishAttempt }, w', fs.state, pub')
  else
    ({ response := { status := 429, body := limiterConfig.message },
       downstreamInvoked := false, publishAttempt := none }, w', bst, pub)

/-- Detects the channel-not-ready error among optional publish outcomes. -/
def channelNotReadyAttempt : Option (Except String Unit) → Bool
  | some (.error e) => e = "RabbitMQ channel is not ready"
  | _ => false

/-! ## Helper lemmas -/

lemma truthy_fallbackData : truthy (fallbackData.lookup "fallback") = true := by
  decide

lemma breakerExecute_of_shortCircuit {opts : BreakerOptions} {st : BreakerState}
    {now : Nat} (fn : CallResult) (fb : JObj)
    (h : (breakerAdmit opts st now).1 = .shortCircuit) :
    breakerExecute opts st now fn fb =
      { invoked := false, result := fb, state := (breakerAdmit opts st now).2 } := by
  unfold breakerExecute
  rcases hA : breakerAdmit opts st now with ⟨adm, st'⟩
  rw [hA] at h
  cases adm
  · simp at h
  · rfl

lemma eventRoute_resolved_response (queue : String) (msg data : JObj)
    (pub : PubState) :
    (eventRoute queue msg (.resolved data) pub).1.response =
      { status := 200, body := data } := by
  unfold eventRoute
  by_cases hc : (!truthy (data.lookup "fallback") && pub.channel.isSome) = true
  · rcases hp : publishToQueue pub queue msg with ⟨r, pub'⟩
    simp [hc, hp]
  · simp [hc]

lemma publishToQueue_ready (pub : PubState) (queue : String) (msg : JObj)
    (h : pub.channel.isSome = true) :
    channelNotReadyAttempt (some (publishToQueue pub queue msg).1) = false := by
  unfold publishToQueue
  rcases hc : pub.channel with _ | healthy
  · rw [hc] at h; simp at h
  · cases healthy <;> simp [channelNotReadyAttempt]

lemma eventRoute_no_unready_publish (queue : String) (msg : JObj)
    (fire : FireResult) (pub : PubState) :
    channelNotReadyAttempt (eventRoute queue msg fire pub).1.publishAttempt = false := by
  unfold eventRoute
  cases fire with
  | rejected => simp [channelNotReadyAttempt]
  | resolved data =>
      by_cases hc : (!truthy (data.lookup "fallback") && pub.channel.isSome) = true
      · rcases hp : publishToQueue pub queue msg with ⟨r, pub'⟩
        have hs : pub.channel.isSome = true := by
          cases h2 : pub.channel.isSome
          · rw [h2, Bool.and_false] at hc; simp at hc
          · rfl
        have := publishToQueue_ready pub queue msg hs
        rw [hp] at this
        simp [hc, hp, this]
      · simp [hc, channelNotReadyAttempt]

/-! ## Claims -/

/-- C1: at every instant there is at most one live underlying bus
connection and at most one connection attempt active system-wide; the
publisher owns a single connection established once at startup and
re-established only by the reconnect path after a close or a failed
attempt, and a publish step never creates or touches a connection. -/
theorem C1_single_connection (s : ConnState) (h : ConnReachable s) :
    s.liveConnections ≤ 1 ∧ s.activeAttempts ≤ 1 ∧
    s.liveConnections + s.activeAttempts ≤ 1 ∧
    ∀ (q : String) (s' : ConnState), ConnStep s (.publish q) s' → s' = s := by
  have ht := connReachable_tokens h
  unfold connTokens at ht
  refine ⟨by omega, by omega, by omega, ?_⟩
  intro q s' hstep
  cases hstep
  rfl

theorem C1_single_connection_witness :
    startupState.liveConnections ≤ 1 ∧ startupState.activeAttempts ≤ 1 :=
  ⟨(C1_single_connection startupState ConnReachable.start).1,
   (C1_single_connection startupState ConnReachable.start).2.1⟩

/-- C4 counterexample: with the in-flight count already at 100 (any
nominal max-in-flight), the metrics middleware still admits the next
request (it always calls next) and the in-flight count exceeds the
bound; no OVERLOADED rejection exists in the code. -/
theorem C4_counterexample :
    (metricsEnter
        { totalRequests := 100, activeConnections := 100, failedRequests := 0 }).2
      = true ∧
    (metricsEnter
        { totalRequests := 100, activeConnections := 100, failedRequests := 0 }).1.activeConnections
      = 101 := by
  decide

/-- C4 amended: the gateway enforces no global max-in-flight bound.  The
metrics middleware admits every request and increments the in-flight
counter unconditionally, so admitted-but-not-completed requests grow
without bound: n concurrent admissions raise the count by exactly n. -/
theorem C4_no_inflight_bound (m : Metrics) (n : Nat) :
    (metricsEnter m).2 = true ∧
    (metricsEnter m).1.activeConnections = m.activeConnections + 1 ∧
    (metricsEnterN n m).activeConnections = m.activeConnections + n := by
  refine ⟨rfl, rfl, ?_⟩
  induction n generalizing m with
  | zero => rfl
  | succ k ih =>
      show (metricsEnterN k (metricsEnter m).1).activeConnections = _
      rw [ih]
      simp [metricsEnter]
      omega

/-- C7: whenever publish is invoked while the channel reference is null,
it fails immediately with the channel-not-ready error and the publisher
state is unchanged: nothing is declared, sent or buffered for later
delivery, and no connection is awaited. -/
theorem C7_publish_fail_fast (st : PubState) (queue : String) (msg : JObj)
    (h : st.channel = none) :
    publishToQueue st queue msg = (.error "RabbitMQ channel is not ready", st) := by
  unfold publishToQueue
  rw [h]

theorem C7_publish_fail_fast_witness :
    publishToQueue { channel := none, declaredQueues := [], sentMessages := [] }
        "auth-events" []
      = (.error "RabbitMQ channel is not ready",
         { channel := none, declaredQueues := [], sentMessages := [] }) :=
  C7_publish_fail_fast
    { channel := none, declaredQueues := [], sentMessages := [] }
    "auth-events" [] rfl

/-- C8 counterexample: outcomes recorded against one target do change
another target`s breaker behavior.  One failing call to the auth target
opens the single shared breaker; a following call to the order target is
then short-circuited, although from a fresh breaker the same call would
have been invoked. -/
theorem C8_counterexample :
    (breakerFire "auth" initialBreaker 0
        { ok := false, durationMs := 0, data := [] }).state.tag = .opened ∧
    (breakerFire "order"
        (breakerFire "auth" initialBreaker 0
          { ok := false, durationMs := 0, data := [] }).state
        1000 { ok := true, durationMs := 10, data := [("id", .jnum 1)] }).invoked
      = false ∧
    (breakerFire "order" initialBreaker 1000
        { ok := true, durationMs := 10, data := [("id", .jnum 1)] }).invoked
      = true := by
  decide

/-- C8 amended: the gateway creates a single CircuitBreaker instance
shared by every route, so breaker state is global rather than
per-target: the outcome and state transition of a fired call depend only
on the shared state, never on which target is being called. -/
theorem C8_shared_breaker (t1 t2 : String) (st : BreakerState) (now : Nat)
    (fn : CallResult) :
    breakerFire t1 st now fn = breakerFire t2 st now fn ∧
    (breakerFire t1 st now fn).state =
      (breakerExecute circuitBreakerOptions st now fn fallbackData).state :=
  ⟨rfl, rfl⟩

/-- C10: on every gateway route the publish call happens only under the
guard that the channel reference is non-null, so the throw branch inside
publishToQueue for a missing channel is unreachable from the route
handlers: no route invocation ever records the channel-not-ready
error. -/
theorem C10_publish_guard_unreachable (now : Nat) (fire : FireResult)
    (pub : PubState) :
    channelNotReadyAttempt (loginRoute now fire pub).1.publishAttempt = false ∧
    channelNotReadyAttempt (ordersRoute now fire pub).1.publishAttempt = false ∧
    channelNotReadyAttempt (usersRoute fire pub).1.publishAttempt = false := by
  refine ⟨eventRoute_no_unready_publish _ _ _ _,
          eventRoute_no_unready_publish _ _ _ _, ?_⟩
  cases fire <;> rfl

/-- C2 counterexample: a short-circuited login call (breaker OPEN,
within the reset timeout) resolves with the installed fallback, so the
gateway answers 200 with the fallback body, not a 503 with the Service
Unavailable body as the claim states. -/
theorem C2_counterexample :
    (breakerExecute circuitBreakerOptions
        { tag := .opened, history := [true], openedAt := 0, trialInFlight := false }
        1000 { ok := true, durationMs := 10, data := [] } fallbackData).invoked
      = false ∧
    (loginRoute 1000
        (fireOf
          { tag := .opened, history := [true], openedAt := 0, trialInFlight := false }
          1000 { ok := true, durationMs := 10, data := [] })
        { channel := some true, declaredQueues := [], sentMessages := [] }).1.response
      = { status := 200, body := fallbackData } ∧
    ({ status := 200, body := fallbackData } : HttpResponse)
      ≠ { status := 503, body := serviceUnavailableBody } := by
  decide

/-- C2 amended: when the breaker short-circuits a call, fire resolves
with the installed fallback data and the gateway responds 200 with the
body containing error Service temporarily unavailable and the fallback
flag; the 503 Service Unavailable response is produced only by the catch
branch, when the fire promise rejects. -/
theorem C2_short_circuit_response (st : BreakerState) (now : Nat)
    (fn : CallResult) (pub : PubState)
    (h : (breakerAdmit circuitBreakerOptions st now).1 = .shortCircuit) :
    (loginRoute now (fireOf st now fn) pub).1.response
      = { status := 200, body := fallbackData } ∧
    (loginRoute now .rejected pub).1.response
      = { status := 503, body := serviceUnavailableBody } := by
  constructor
  · unfold fireOf
    rw [breakerExecute_of_shortCircuit fn fallbackData h]
    exact eventRoute_resolved_response _ _ _ _
  · rfl

theorem C2_short_circuit_response_witness :
    (loginRoute 1000
        (fireOf
          { tag := .opened, history := [true], openedAt := 0, trialInFlight := false }
          1000 { ok := true, durationMs := 10, data := [] })
        { channel := some true, declaredQueues := [], sentMessages := [] }).1.response
      = { status := 200, body := fallbackData } ∧
    (loginRoute 1000 .rejected
        { channel := some true, declaredQueues := [], sentMessages := [] }).1.response
      = { status := 503, body := serviceUnavailableBody } :=
  C2_short_circuit_response
    { tag := .opened, history := [true], openedAt := 0, trialInFlight := false }
    1000 { ok := true, durationMs := 10, data := [] }
    { channel := some true, declaredQueues := [], sentMessages := [] }
    (by decide)

/-- C3: under downstream failure, once the rolling failure ratio reaches
the error threshold the breaker transitions CLOSED to OPEN recording the
call time as openedAt; every call within resetTimeout of openedAt
returns the fallback without invoking the underlying function and leaves
the state unchanged; and once resetTimeout has elapsed, the OPEN to
HALF_OPEN transition happens lazily inside the admission decision of the
next call attempt — the state machine has no timer transition. -/
theorem C3_breaker_temporal
    (s1 s2 s3 : BreakerState) (t1 t2 t3 : Nat) (r : CallResult) (fb : JObj)
    (h1 : s1.tag = .closed)
    (hf : isFailure circuitBreakerOptions r = true)
    (hr : circuitBreakerOptions.errorThresholdPercentage ≤
            failureRatio (recordOutcome s1.history true))
    (h2 : s2.tag = .opened)
    (ht2 : t2 < s2.openedAt + circuitBreakerOptions.resetTimeout)
    (h3 : s3.tag = .opened)
    (ht3 : s3.openedAt + circuitBreakerOptions.resetTimeout ≤ t3) :
    (breakerExecute circuitBreakerOptions s1 t1 r fb).invoked = true ∧
    (breakerExecute circuitBreakerOptions s1 t1 r fb).state.tag = .opened ∧
    (breakerExecute circuitBreakerOptions s1 t1 r fb).state.openedAt = t1 ∧
    breakerExecute circuitBreakerOptions s2 t2 r fb
      = { invoked := false, result := fb, state := s2 } ∧
    (breakerAdmit circuitBreakerOptions s3 t3).1 = .proceed ∧
    (breakerAdmit circuitBreakerOptions s3 t3).2.tag = .halfOpen := by
  have hA : breakerAdmit circuitBreakerOptions s1 t1 = (.proceed, s1) := by
    simp [breakerAdmit, h1]
  have hEx : breakerExecute circuitBreakerOptions s1 t1 r fb =
      { invoked := true,
        result := if isFailure circuitBreakerOptions r then fb else r.data,
        state := breakerComplete circuitBreakerOptions s1 t1
                   (isFailure circuitBreakerOptions r) } := by
    unfold breakerExecute
    rw [hA]
  have hC : breakerComplete circuitBreakerOptions s1 t1 true =
      { tag := .opened, history := recordOutcome s1.history true,
        openedAt := t1, trialInFlight := false } := by
    simp [breakerComplete, h1, hr]
  have hB : breakerAdmit circuitBreakerOptions s2 t2 = (.shortCircuit, s2) := by
    simp [breakerAdmit, h2, ht2]
  have hD : breakerAdmit circuitBreakerOptions s3 t3 =
      (.proceed, { s3 with tag := .halfOpen, trialInFlight := true }) := by
    simp [breakerAdmit, h3]
    omega
  refine ⟨?_, ?_, ?_, ?_, ?_, ?_⟩
  · rw [hEx]
  · rw [hEx, hf, hC]
  · rw [hEx, hf, hC]
  · unfold breakerExecute
    rw [hB]
  · rw [hD]
  · rw [hD]

theorem C3_breaker_temporal_witness :
    (breakerExecute circuitBreakerOptions
        { tag := .closed, history := [], openedAt := 0, trialInFlight := false }
        100 { ok := false, durationMs := 0, data := [] } fallbackData).invoked
      = true ∧
    (breakerExecute circuitBreakerOptions
        { tag := .closed, history := [], openedAt := 0, trialInFlight := false }
        100 { ok := false, durationMs := 0, data := [] } fallbackData).state.tag
      = .opened ∧
    (breakerExecute circuitBreakerOptions
        { tag := .closed, history := [], openedAt := 0, trialInFlight := false }
        100 { ok := false, durationMs := 0, data := [] } fallbackData).state.openedAt
      = 100 ∧
    breakerExecute circuitBreakerOptions
        { tag := .opened, history := [true], openedAt := 100, trialInFlight := false }
        5000 { ok := false, durationMs := 0, data := [] } fallbackData
      = { invoked := false, result := fallbackData,
          state := { tag := .opened, history := [true], openedAt := 100,
                     trialInFlight := false } } ∧
    (breakerAdmit circuitBreakerOptions
        { tag := .opened, history := [true], openedAt := 100, trialInFlight := false }
        10100).1 = .proceed ∧
    (breakerAdmit circuitBreakerOptions
        { tag := .opened, history := [true], openedAt := 100, trialInFlight := false }
        10100).2.tag = .halfOpen :=
  C3_breaker_temporal
    { tag := .closed, history := [], openedAt := 0, trialInFlight := false }
    { tag := .opened, history := [true], openedAt := 100, trialInFlight := false }
    { tag := .opened, history := [true], openedAt := 100, trialInFlight := false }
    100 5000 10100 { ok := false, durationMs := 0, data := [] } fallbackData
    (by decide) (by decide) (by decide) (by decide) (by decide) (by decide)
    (by decide)

/-- C5: every request rejected by the rate limiter is answered
immediately with status 429 and the configured too-many-requests body,
no downstream call is made, and the breaker and publisher states are
untouched. -/
theorem C5_admission_rejection (route : Route) (w : Option RateWindow)
    (now : Nat) (bst : BreakerState) (pub : PubState) (fn : CallResult)
    (h : (rateLimitAdmit limiterConfig w now).1 = false) :
    gatewayHandle route w now bst pub fn =
      ({ response :=
           { status := 429,
             body := [("error", .jstr "Too many requests, please try again later.")] },
         downstreamInvoked := false, publishAttempt := none },
       (rateLimitAdmit limiterConfig w now).2, bst, pub) := by
  unfold gatewayHandle
  rcases hA : rateLimitAdmit limiterConfig w now with ⟨allowed, w2⟩
  rw [hA] at h
  simp at h
  subst h
  simp [limiterConfig]

theorem C5_admission_rejection_witness :
    gatewayHandle .authLogin (some { windowStart := 0, count := 100 }) 1000
        initialBreaker
        { channel := some true, declaredQueues := [], sentMessages := [] }
        { ok := true, durationMs := 10, data := [] } =
      ({ response :=
           { status := 429,
             body := [("error", .jstr "Too many requests, please try again later.")] },
         downstreamInvoked := false, publishAttempt := none },
       (rateLimitAdmit limiterConfig (some { windowStart := 0, count := 100 }) 1000).2,
       initialBreaker,
       { channel := some true, declaredQueues := [], sentMessages := [] }) :=
  C5_admission_rejection .authLogin (some { windowStart := 0, count := 100 }) 1000
    initialBreaker
    { channel := some true, declaredQueues := [], sentMessages := [] }
    { ok := true, durationMs := 10, data := [] } (by decide)

/-- C6: for an admitted request whose downstream call resolved with a
non-fallback result, the client response is the 200 response carrying
exactly that result, for every publisher state — whether the
fire-and-forget publish succeeds, fails on a stale channel, or is
skipped — so a publish failure never changes the already-computed
response. -/
theorem C6_publish_failure_frame (now : Nat) (data : JObj)
    (pub1 pub2 : PubState)
    (hnf : truthy (data.lookup "fallback") = false) :
    (loginRoute now (.resolved data) pub1).1.response
      = { status := 200, body := data } ∧
    (loginRoute now (.resolved data) pub2).1.response
      = { status := 200, body := data } ∧
    (loginRoute now (.resolved data) pub1).1.response
      = (loginRoute now (.resolved data) pub2).1.response ∧
    (ordersRoute now (.resolved data) pub1).1.response
      = { status := 200, body := data } := by
  refine ⟨eventRoute_resolved_response _ _ _ _,
          eventRoute_resolved_response _ _ _ _, ?_,
          eventRoute_resolved_response _ _ _ _⟩
  unfold loginRoute
  rw [eventRoute_resolved_response, eventRoute_resolved_response]

theorem C6_publish_failure_frame_witness :
    (loginRoute 7 (.resolved [("token", .jstr "abc")])
        { channel := some true, declaredQueues := [], sentMessages := [] }).1.response
      = { status := 200, body := [("token", .jstr "abc")] } ∧
    (loginRoute 7 (.resolved [("token", .jstr "abc")])
        { channel := some false, declaredQueues := [], sentMessages := [] }).1.response
      = { status := 200, body := [("token", .jstr "abc")] } ∧
    (loginRoute 7 (.resolved [("token", .jstr "abc")])
        { channel := some true, declaredQueues := [], sentMessages := [] }).1.response
      = (loginRoute 7 (.resolved [("token", .jstr "abc")])
          { channel := some false, declaredQueues := [], sentMessages := [] }).1.response ∧
    (ordersRoute 7 (.resolved [("token", .jstr "abc")])
        { channel := some true, declaredQueues := [], sentMessages := [] }).1.response
      = { status := 200, body := [("token", .jstr "abc")] } :=
  C6_publish_failure_frame 7 [("token", .jstr "abc")]
    { channel := some true, declaredQueues := [], sentMessages := [] }
    { channel := some false, declaredQueues := [], sentMessages := [] }
    (by decide)

/-- C9 counterexample: the rate limiter is applied to all requests, so a
GET /health request from a client that is over its rate limit is
answered 429 with the too-many-requests body instead of the liveness
response: /health does not bypass admission control. -/
theorem C9_counterexample :
    (gatewayHandle .health (some { windowStart := 0, count := 100 }) 1000
        initialBreaker
        { channel := some true, declaredQueues := [], sentMessages := [] }
        { ok := true, durationMs := 10, data := [] }).1.response
      = { status := 429,
          body := [("error", .jstr "Too many requests, please try again later.")] } ∧
    (gatewayHandle .health (some { windowStart := 0, count := 100 }) 1000
        initialBreaker
        { channel := some true, declaredQueues := [], sentMessages := [] }
        { ok := true, durationMs := 10, data := [] }).1.response
      ≠ { status := 200, body := healthBody } := by
  decide

/-- C9 amended: GET /health bypasses the circuit breaker and the
publisher — it never makes a downstream call and leaves the breaker and
publisher states untouched — but it does pass through the rate limiter:
whenever the limiter admits the request, and only then, it is answered
with the liveness body. -/
theorem C9_health_when_admitted (w : Option RateWindow) (now : Nat)
    (bst : BreakerState) (pub : PubState) (fn : CallResult)
    (h : (rateLimitAdmit limiterConfig w now).1 = true) :
    gatewayHandle .health w now bst pub fn =
      ({ response := { status := 200, body := healthBody },
         downstreamInvoked := false, publishAttempt := none },
       (rateLimitAdmit limiterConfig w now).2, bst, pub) := by
  unfold gatewayHandle
  rcases hA : rateLimitAdmit limiterConfig w now with ⟨allowed, w2⟩
  rw [hA] at h
  simp at h
  subst h
  simp

theorem C9_health_when_admitted_witness :
    gatewayHandle .health none 0 initialBreaker
        { channel := some true, declaredQueues := [], sentMessages := [] }
        { ok := true, durationMs := 10, data := [] } =
      ({ response := { status := 200, body := healthBody },
         downstreamInvoked := false, publishAttempt := none },
       (rateLimitAdmit limiterConfig none 0).2, initialBreaker,
       { channel := some true, declaredQueues := [], sentMessages := [] }) :=
  C9_health_when_admitted none 0 initialBreaker
    { channel := some true, declaredQueues := [], sentMessages := [] }
    { ok := true, durationMs := 10, data := [] } (by decide)

end VulnLab
